import Mathlib

/-!
Shallow embedding of the resume-screening backend (`src/main.py`) and proofs
of the specified properties of its relevance scorer, decision rule, file
validation, submission handler and chat-proxy retry loop.

Strings are modelled by Lean `String` (lists of unicode scalar values); the
Python `str.lower` and `str.upper` methods are modelled by the ASCII case
maps `Char.toLower` and `Char.toUpper` applied pointwise, and the regex
`\b\w+\b` by maximal runs of `[A-Za-z0-9_]` characters.  The Python float
expression `int(matches / max(1, n) * 100)` is modelled by the exact
truncated quotient `matches * 100 / max 1 n`; at the magnitudes reachable
here the double-precision evaluation agrees with the exact value.
-/

namespace ResumeScreening

/-- A word character of the regex `\w` (ASCII range): letter, digit or
underscore. -/
def isWordChar (c : Char) : Bool :=
  decide ((65 ≤ c.toNat ∧ c.toNat ≤ 90) ∨ (97 ≤ c.toNat ∧ c.toNat ≤ 122) ∨
    (48 ≤ c.toNat ∧ c.toNat ≤ 57) ∨ c.toNat = 95)

/-- A whitespace character stripped by the Python `str.strip()` method
(space, tab, newline, carriage return, vertical tab, form feed). -/
def isPySpace (c : Char) : Bool :=
  decide (c.toNat = 32 ∨ c.toNat = 9 ∨ c.toNat = 10 ∨ c.toNat = 13 ∨
    c.toNat = 11 ∨ c.toNat = 12)

/-- The Python test `not s.strip()`: the string consists of whitespace
only. -/
def stripIsEmpty (s : String) : Bool := s.data.all isPySpace

/-- Accumulator-based splitter: cuts a character list into the maximal runs
of word characters, as `re.findall(r"\b\w+\b", ...)` does.  `cur` holds the
(reversed) run currently being read. -/
def splitWords : List Char → List Char → List (List Char)
  | [], cur => if cur.isEmpty then [] else [cur.reverse]
  | c :: cs, cur =>
    if isWordChar c then splitWords cs (c :: cur)
    else if cur.isEmpty then splitWords cs []
    else cur.reverse :: splitWords cs []

/-- `re.findall(r"\b\w+\b", l)`: the maximal runs of word characters. -/
def findallWords (l : List Char) : List (List Char) := splitWords l []

/-- The Python expression `s.lower()` (ASCII case folding). -/
def pyLower (s : String) : String := ⟨s.data.map Char.toLower⟩

/-- The Python expression `s.upper()` (ASCII case folding). -/
def pyUpper (s : String) : String := ⟨s.data.map Char.toUpper⟩

/-- `re.findall(r"\b\w+\b", s.lower())`: the word tokens of `s`,
lower-cased. -/
def tokens (s : String) : List (List Char) :=
  findallWords (s.data.map Char.toLower)

/-- The module-level job description of `src/main.py` (lines 69-72). -/
def JOB_DESCRIPTION : String :=
  "Looking for candidates with strong Python, Flask, HTML/CSS, JavaScript skills, experience in AI/ML projects, attention to detail, and excellent communication."

/-- `calculate_score` of `src/main.py` (lines 154-163), generalised over the
job description it reads (the source reads the module-level constant
`JOB_DESCRIPTION`); blank resumes score 0, otherwise the number of unique
job-description keywords present among the words of the resume is scaled to
a 0-100 integer and clamped at 100. -/
def calculate_score_with (jd : String) (resume_text : String) : Nat :=
  if stripIsEmpty resume_text then 0
  else
    min 100
      ((((tokens jd).dedup.filter
          (fun k => (tokens resume_text).contains k)).length * 100) /
        max 1 (tokens jd).dedup.length)

/-- `calculate_score` exactly as in the source: against the fixed
`JOB_DESCRIPTION`. -/
def calculate_score (resume_text : String) : Nat :=
  calculate_score_with JOB_DESCRIPTION resume_text

/-- The decision rule of the submission handler (`src/main.py` line 280):
`"Accepted" if score >= 85 else "Rejected"`. -/
def decision (score : Nat) : String :=
  if 85 ≤ score then "Accepted" else "Rejected"

/-- The allowed upload extensions (`src/main.py` line 48). -/
def ALLOWED_EXTENSIONS : List String := ["pdf", "doc", "docx", "txt"]

/-- The characters after the last dot of a filename:
`filename.rsplit(".", 1)[1]` whenever a dot is present. -/
def extAfterLastDot (l : List Char) : List Char :=
  (l.reverse.takeWhile (fun c => !(c == '.'))).reverse

/-- `allowed_file` of `src/main.py` (lines 83-84): the filename contains a
dot and the lower-cased extension after the last dot is an allowed one. -/
def allowed_file (filename : String) : Bool :=
  filename.data.contains '.' &&
    (ALLOWED_EXTENSIONS.map String.data).contains
      ((extAfterLastDot filename.data).map Char.toLower)

/-- A parsed multipart submission as the `/submit` handler reads it: the
three form fields, whether a `resume` part is attached, its filename, and
the plain text the extractor collaborator recovers from the saved file
(empty on extraction failure). -/
structure SubmitRequest where
  name : String
  email : String
  phone : String
  hasResumeFile : Bool
  filename : String
  extractedText : String

/-- Outcome of the spreadsheet append (`sheet_handle` plus `append_row`):
either it succeeds or it raises an exception with the given message. -/
inductive SheetOutcome
  | ok
  | err (msg : String)

/-- Outcome of `send_email`, which returns a (sent, message) pair and never
raises: it catches transport errors internally and reports an unconfigured
transport as a skip message. -/
structure EmailOutcome where
  sent : Bool
  msg : String

/-- A JSON HTTP response of the `/submit` handler: status code, the `ok`
flag, the optional score, decision and error fields and the warnings
list. -/
structure HttpResponse where
  status : Nat
  ok : Bool
  score : Option Nat
  decision : Option String
  warnings : List String
  error : Option String

/-- The `/submit` handler of `src/main.py` (lines 247-316), with the two
fallible collaborators (spreadsheet append, email send) supplied as outcome
parameters: field validation returns 400 errors, otherwise the resume is
scored and a 200 response is produced, collaborator failures being appended
to the warnings list only. -/
def submit (req : SubmitRequest) (sheet : SheetOutcome) (mail : EmailOutcome) :
    HttpResponse :=
  if stripIsEmpty req.name || stripIsEmpty req.email || stripIsEmpty req.phone then
    { status := 400, ok := false, score := none, decision := none, warnings := [],
      error := some "Name, email and phone are required" }
  else if !req.hasResumeFile then
    { status := 400, ok := false, score := none, decision := none, warnings := [],
      error := some "Resume file required" }
  else if req.filename = "" then
    { status := 400, ok := false, score := none, decision := none, warnings := [],
      error := some "No file selected" }
  else if !allowed_file req.filename then
    { status := 400, ok := false, score := none, decision := none, warnings := [],
      error := some "Unsupported file type. Allowed: doc, docx, pdf, txt" }
  else
    let score := calculate_score req.extractedText
    let w1 : List String :=
      match sheet with
      | .ok => []
      | .err e => ["Sheets logging failed: " ++ e]
    let w2 : List String :=
      if mail.sent then w1 else w1 ++ ["Email: " ++ mail.msg]
    { status := 200, ok := true, score := some score,
      decision := some (decision score), warnings := w2, error := none }

/-- What the interaction of one loop iteration with the Gemini endpoint
yields: either `requests.post` returned a response with the given status
code, body text and (for the success path) the candidate text parsed out of
the JSON, or the attempt raised a request (or JSON-decoding) exception with
the given message. -/
inductive GeminiAttempt
  | httpResponse (status : Nat) (body : String) (candidate : Option String)
  | raised (msg : String)

/-- One iteration of the retry loop of `call_gemini` (`src/main.py` lines
205-223): `none` models `continue`, `some r` models `return r`.  Statuses
at least 400 in the retryable set 429/500/502/503/504 are retried on the
first two attempts; other error statuses return a descriptive error string;
a raised exception is retried unless this was the last attempt. -/
def geminiStep (a : GeminiAttempt) (attempt : Nat) : Option String :=
  match a with
  | .httpResponse status body candidate =>
    if 400 ≤ status then
      if (status = 429 ∨ status = 500 ∨ status = 502 ∨ status = 503 ∨ status = 504)
          ∧ attempt < 2 then none
      else some ("(Gemini error " ++ toString status ++ ": " ++ body.take 200 ++ ")")
    else some (candidate.getD "(No content)")
  | .raised msg =>
    if attempt = 2 then some ("(Gemini request failed: " ++ msg ++ ")") else none

/-- `call_gemini` of `src/main.py` (lines 191-224), the per-attempt outcomes
supplied as an oracle: a missing API key short-circuits, otherwise the loop
body runs for attempts 0, 1, 2. -/
def call_gemini (apiKey : String) (attempts : Nat → GeminiAttempt) : String :=
  if apiKey = "" then "(Gemini API key missing – set GEMINI_API_KEY)"
  else
    match geminiStep (attempts 0) 0 with
    | some r => r
    | none =>
      match geminiStep (attempts 1) 1 with
      | some r => r
      | none =>
        match geminiStep (attempts 2) 2 with
        | some r => r
        | none => "(Gemini unreachable)"

/-- The conversion `Char.ofNat` is injectively inverted by `Char.toNat` on
valid code points below the surrogate range. -/
theorem char_toNat_ofNat {n : Nat} (h : n < 55296) : (Char.ofNat n).toNat = n := by
  have hv : n.isValidChar := Or.inl h
  rw [Char.ofNat, dif_pos hv]
  rfl

theorem toUpper_pos {c : Char} (h : 97 ≤ c.toNat ∧ c.toNat ≤ 122) :
    c.toUpper = Char.ofNat (c.toNat - 32) := by
  unfold Char.toUpper
  exact if_pos ⟨h.1, h.2⟩

theorem toUpper_neg {c : Char} (h : ¬(97 ≤ c.toNat ∧ c.toNat ≤ 122)) :
    c.toUpper = c := by
  unfold Char.toUpper
  exact if_neg h

theorem toLower_pos {c : Char} (h : 65 ≤ c.toNat ∧ c.toNat ≤ 90) :
    c.toLower = Char.ofNat (c.toNat + 32) := by
  unfold Char.toLower
  exact if_pos ⟨h.1, h.2⟩

theorem toLower_neg {c : Char} (h : ¬(65 ≤ c.toNat ∧ c.toNat ≤ 90)) :
    c.toLower = c := by
  unfold Char.toLower
  exact if_neg h

theorem toLower_toUpper (c : Char) : c.toUpper.toLower = c.toLower := by
  by_cases h : 97 ≤ c.toNat ∧ c.toNat ≤ 122
  · have h32 : (Char.ofNat (c.toNat - 32)).toNat = c.toNat - 32 :=
      char_toNat_ofNat (by omega)
    rw [toUpper_pos h, toLower_pos (by rw [h32]; omega), h32,
      toLower_neg (by omega)]
    have he : c.toNat - 32 + 32 = c.toNat := by omega
    rw [he, Char.ofNat_toNat]
  · rw [toUpper_neg h]

theorem toLower_toLower (c : Char) : c.toLower.toLower = c.toLower := by
  by_cases h : 65 ≤ c.toNat ∧ c.toNat ≤ 90
  · have h32 : (Char.ofNat (c.toNat + 32)).toNat = c.toNat + 32 :=
      char_toNat_ofNat (by omega)
    rw [toLower_pos h, toLower_neg (by rw [h32]; omega)]
  · rw [toLower_neg h]
    exact toLower_neg h

theorem isPySpace_toUpper (c : Char) : isPySpace c.toUpper = isPySpace c := by
  by_cases h : 97 ≤ c.toNat ∧ c.toNat ≤ 122
  · have h32 : (Char.ofNat (c.toNat - 32)).toNat = c.toNat - 32 :=
      char_toNat_ofNat (by omega)
    rw [toUpper_pos h]
    unfold isPySpace
    rw [h32]
    simp only [decide_eq_decide]
    omega
  · rw [toUpper_neg h]

theorem toLower_of_space {c : Char} (h : isPySpace c = true) : c.toLower = c := by
  unfold isPySpace at h
  simp only [decide_eq_true_eq] at h
  exact toLower_neg (by omega)

theorem not_word_of_space {c : Char} (h : isPySpace c = true) :
    isWordChar c = false := by
  unfold isPySpace at h
  unfold isWordChar
  simp only [decide_eq_true_eq] at h
  simp only [decide_eq_false_iff_not]
  omega

/-- A character list without word characters splits into no tokens. -/
theorem splitWords_nil : ∀ {l : List Char}, (∀ c ∈ l, isWordChar c = false) →
    splitWords l [] = []
  | [], _ => rfl
  | c :: cs, h => by
    have hc : isWordChar c = false := h c (List.mem_cons_self c cs)
    rw [splitWords, if_neg (by simp [hc]), if_pos (by simp)]
    exact splitWords_nil (fun d hd => h d (List.mem_cons_of_mem c hd))

/-- A whitespace-only string has no word tokens. -/
theorem tokens_eq_nil_of_blank {s : String} (h : stripIsEmpty s = true) :
    tokens s = [] := by
  unfold stripIsEmpty at h
  rw [List.all_eq_true] at h
  unfold tokens findallWords
  apply splitWords_nil
  intro c hc
  rw [List.mem_map] at hc
  obtain ⟨d, hd, rfl⟩ := hc
  have hsp : isPySpace d = true := h d hd
  rw [toLower_of_space hsp]
  exact not_word_of_space hsp

/-- Filtering by a pointwise weaker predicate keeps no fewer elements. -/
theorem filter_length_mono {α : Type} (l : List α) (p q : α → Bool)
    (h : ∀ a ∈ l, p a = true → q a = true) :
    (l.filter p).length ≤ (l.filter q).length := by
  induction l with
  | nil => simp
  | cons a t ih =>
    have ht : ∀ b ∈ t, p b = true → q b = true :=
      fun b hb => h b (List.mem_cons_of_mem a hb)
    by_cases hp : p a = true
    · rw [List.filter_cons_of_pos hp,
        List.filter_cons_of_pos (h a (List.mem_cons_self a t) hp)]
      simpa using ih ht
    · rw [List.filter_cons_of_neg hp]
      refine le_trans (ih ht) ?_
      by_cases hq : q a = true
      · rw [List.filter_cons_of_pos hq]; simp
      · rw [List.filter_cons_of_neg hq]

/-- Upper-casing a string does not change its lower-cased tokens. -/
theorem tokens_pyUpper (s : String) : tokens (pyUpper s) = tokens s := by
  unfold tokens pyUpper
  show findallWords ((s.data.map Char.toUpper).map Char.toLower) = _
  rw [List.map_map]
  have hcomp : Char.toLower ∘ Char.toUpper = Char.toLower := funext toLower_toUpper
  rw [hcomp]

/-- Lower-casing a string does not change its lower-cased tokens. -/
theorem tokens_pyLower (s : String) : tokens (pyLower s) = tokens s := by
  unfold tokens pyLower
  show findallWords ((s.data.map Char.toLower).map Char.toLower) = _
  rw [List.map_map]
  have hcomp : Char.toLower ∘ Char.toLower = Char.toLower := funext toLower_toLower
  rw [hcomp]

/-- Upper-casing preserves blankness. -/
theorem stripIsEmpty_pyUpper (s : String) :
    stripIsEmpty (pyUpper s) = stripIsEmpty s := by
  unfold stripIsEmpty pyUpper
  show (s.data.map Char.toUpper).all isPySpace = _
  rw [List.all_map]
  have hcomp : isPySpace ∘ Char.toUpper = isPySpace := funext isPySpace_toUpper
  rw [hcomp]

/-- C1: for every resume text, the scorer (against the fixed job description
of the program) returns an integer in the range [0, 100]. -/
theorem calculate_score_in_range (resume_text : String) :
    0 ≤ calculate_score resume_text ∧ calculate_score resume_text ≤ 100 := by
  refine ⟨Nat.zero_le _, ?_⟩
  unfold calculate_score calculate_score_with
  split
  · omega
  · exact Nat.min_le_left _ _

/-- C1 witness. -/
theorem calculate_score_in_range_witness :
    0 ≤ calculate_score "I know Python" ∧ calculate_score "I know Python" ≤ 100 :=
  calculate_score_in_range "I know Python"

/-- A resume sharing no token with the job description scores zero. -/
theorem score_zero_aux {jd r : String} (h : ∀ t ∈ tokens r, t ∉ tokens jd) :
    calculate_score_with jd r = 0 := by
  unfold calculate_score_with
  split
  · rfl
  · have hf : (tokens jd).dedup.filter (fun k => (tokens r).contains k) = [] := by
      rw [List.filter_eq_nil_iff]
      intro k hk hcon
      have hkr : k ∈ tokens r := by simpa using hcon
      exact h k hkr (List.mem_dedup.mp hk)
    rw [hf]
    simp

/-- C2: whenever the lower-cased word-token set of the resume is disjoint
from the keyword set of the job description — in particular when the resume
text is empty or whitespace-only — the scorer returns 0, for every job
description including the empty string; hence an unreadable resume (empty
extracted text) gets the same score as a resume with zero keyword
overlap. -/
theorem score_zero_of_disjoint (jd resume_text : String) :
    ((∀ t ∈ tokens resume_text, t ∉ tokens jd) →
      calculate_score_with jd resume_text = 0) ∧
    (stripIsEmpty resume_text = true → calculate_score_with jd resume_text = 0) ∧
    ((∀ t ∈ tokens resume_text, t ∉ tokens jd) →
      calculate_score_with jd resume_text = calculate_score_with jd "") := by
  refine ⟨fun h => score_zero_aux h, fun hb => ?_, fun h => ?_⟩
  · unfold calculate_score_with
    rw [if_pos hb]
  · rw [score_zero_aux h,
      @score_zero_aux jd "" (by simp [tokens, findallWords, splitWords])]

/-- C2 witness. -/
theorem score_zero_of_disjoint_witness :
    calculate_score_with "python flask" "golang rust" = 0 ∧
    calculate_score "   " = 0 ∧
    calculate_score_with "python flask" "golang rust" =
      calculate_score_with "python flask" "" :=
  ⟨(score_zero_of_disjoint "python flask" "golang rust").1 (by decide),
    (score_zero_of_disjoint JOB_DESCRIPTION "   ").2.1 (by decide),
    (score_zero_of_disjoint "python flask" "golang rust").2.2 (by decide)⟩

/-- C3: a resume whose lower-cased word-token set covers every keyword of
the job description of the program scores exactly 100. -/
theorem score_hundred_of_superset (resume_text : String)
    (h : ∀ t ∈ tokens JOB_DESCRIPTION, t ∈ tokens resume_text) :
    calculate_score resume_text = 100 := by
  have hmem : "looking".data ∈ tokens resume_text :=
    h "looking".data (by decide)
  have hb : ¬ stripIsEmpty resume_text = true := by
    intro hb
    rw [tokens_eq_nil_of_blank hb] at hmem
    exact absurd hmem (List.not_mem_nil _)
  unfold calculate_score calculate_score_with
  rw [if_neg hb]
  have hfil : (tokens JOB_DESCRIPTION).dedup.filter
      (fun k => (tokens resume_text).contains k) =
      (tokens JOB_DESCRIPTION).dedup := by
    rw [List.filter_eq_self]
    intro k hk
    simpa using h k (List.mem_dedup.mp hk)
  rw [hfil]
  have hlen : (tokens JOB_DESCRIPTION).dedup.length = 22 := by decide
  rw [hlen]
  norm_num

/-- C3 witness: the job description itself covers all of its keywords. -/
theorem score_hundred_of_superset_witness :
    calculate_score JOB_DESCRIPTION = 100 :=
  score_hundred_of_superset JOB_DESCRIPTION (fun _ ht => ht)

/-- C4: for two non-blank resume texts where the word-token set of the
second contains every job-description keyword the first contains, the score
of the second is at least the score of the first. -/
theorem score_monotone (r1 r2 : String)
    (h1 : stripIsEmpty r1 = false) (h2 : stripIsEmpty r2 = false)
    (h : ∀ k ∈ tokens JOB_DESCRIPTION, k ∈ tokens r1 → k ∈ tokens r2) :
    calculate_score r1 ≤ calculate_score r2 := by
  unfold calculate_score calculate_score_with
  rw [if_neg (by simp [h1]), if_neg (by simp [h2])]
  refine min_le_min (le_refl 100) ?_
  refine Nat.div_le_div_right ?_
  refine Nat.mul_le_mul_right 100 ?_
  refine filter_length_mono _ _ _ ?_
  intro k hk hc1
  have hk1 : k ∈ tokens r1 := by simpa using hc1
  have hk2 : k ∈ tokens r2 := h k (List.mem_dedup.mp hk) hk1
  simpa using hk2

/-- C4 witness. -/
theorem score_monotone_witness :
    calculate_score "python" ≤ calculate_score "python flask" :=
  score_monotone "python" "python flask" (by decide) (by decide) (by decide)

/-- C5: the scorer is case-insensitive: upper-casing the resume text does
not change the score, and lower-casing the job description while
upper-casing the resume yields the same score as the originals. -/
theorem score_case_insensitive (jd resume_text : String) :
    calculate_score_with jd resume_text =
      calculate_score_with (pyLower jd) (pyUpper resume_text) ∧
    calculate_score (pyUpper resume_text) = calculate_score resume_text := by
  constructor
  · unfold calculate_score_with
    rw [tokens_pyUpper, tokens_pyLower, stripIsEmpty_pyUpper]
  · unfold calculate_score calculate_score_with
    rw [tokens_pyUpper, stripIsEmpty_pyUpper]

/-- C5 witness. -/
theorem score_case_insensitive_witness :
    calculate_score_with "Python, Flask" "I know python" =
      calculate_score_with (pyLower "Python, Flask") (pyUpper "I know python") ∧
    calculate_score (pyUpper "I know python") = calculate_score "I know python" :=
  score_case_insensitive "Python, Flask" "I know python"

/-- C6: the decision is Accepted exactly when the score reaches the
threshold 85, Rejected otherwise; in particular 84 is Rejected, 85 and 100
Accepted, and 0 Rejected. -/
theorem decision_iff_threshold :
    (∀ s : Nat, (decision s = "Accepted" ↔ 85 ≤ s) ∧
      (decision s = "Rejected" ↔ s < 85)) ∧
    decision 84 = "Rejected" ∧ decision 85 = "Accepted" ∧
    decision 100 = "Accepted" ∧ decision 0 = "Rejected" := by
  refine ⟨fun s => ?_, rfl, rfl, rfl, rfl⟩
  by_cases hs : 85 ≤ s
  · unfold decision
    rw [if_pos hs]
    exact ⟨⟨fun _ => hs, fun _ => rfl⟩,
      ⟨fun hcon => absurd hcon (by decide), fun hlt => absurd hs (by omega)⟩⟩
  · unfold decision
    rw [if_neg hs]
    exact ⟨⟨fun hcon => absurd hcon (by decide), fun hge => absurd hge hs⟩,
      ⟨fun _ => by omega, fun _ => rfl⟩⟩

/-- C6 witness. -/
theorem decision_iff_threshold_witness :
    decision 90 = "Accepted" ∧ decision 10 = "Rejected" :=
  ⟨(decision_iff_threshold.1 90).1.mpr (by omega),
    (decision_iff_threshold.1 10).2.mpr (by omega)⟩

/-- C7 counterexample: on the fixed job description of the program and the
resume text "I have strong Python and Flask experience" the keyword set has
22 unique tokens (not 18) and the matched keywords are the five tokens
strong, python, flask, experience and "and" — not the claimed four. -/
theorem end_to_end_example_counterexample :
    ¬ (((tokens JOB_DESCRIPTION).dedup.filter
        (fun k => (tokens "I have strong Python and Flask experience").contains k)).length = 4 ∧
      (tokens JOB_DESCRIPTION).dedup.length = 18) ∧
    ((tokens JOB_DESCRIPTION).dedup.filter
      (fun k => (tokens "I have strong Python and Flask experience").contains k)).length = 5 ∧
    (tokens JOB_DESCRIPTION).dedup.length = 22 ∧
    "and".data ∈ (tokens JOB_DESCRIPTION).dedup.filter
      (fun k => (tokens "I have strong Python and Flask experience").contains k) := by
  refine ⟨?_, by decide, by decide, by decide⟩
  intro hcon
  have h5 : ((tokens JOB_DESCRIPTION).dedup.filter
      (fun k => (tokens "I have strong Python and Flask experience").contains k)).length = 5 := by
    decide
  rw [h5] at hcon
  exact absurd hcon.1 (by decide)

/-- C7 (amended): on the fixed job description and the resume text
"I have strong Python and Flask experience" the keyword set has 22 unique
tokens, the matches are exactly strong, python, flask, experience and "and"
(5 matches), the score is int(5/22*100) = 22, and the decision at threshold
85 is Rejected. -/
theorem end_to_end_example :
    (tokens JOB_DESCRIPTION).dedup.length = 22 ∧
    (tokens JOB_DESCRIPTION).dedup.filter
      (fun k => (tokens "I have strong Python and Flask experience").contains k) =
      ["strong".data, "python".data, "flask".data, "experience".data, "and".data] ∧
    calculate_score "I have strong Python and Flask experience" = 5 * 100 / 22 ∧
    calculate_score "I have strong Python and Flask experience" = 22 ∧
    decision (calculate_score "I have strong Python and Flask experience") =
      "Rejected" := by
  exact ⟨by decide, by decide, by decide, by decide, by decide⟩

/-- C8: for a well-formed submission (non-blank fields, a selected file with
an allowed extension), whatever the spreadsheet and email outcomes —
including failures — the handler returns HTTP 200 with `ok`, the score and
the decision, and reports collaborator failures only as warning strings. -/
theorem submit_collaborator_failures_nonfatal (req : SubmitRequest)
    (sheet : SheetOutcome) (mail : EmailOutcome)
    (hname : stripIsEmpty req.name = false)
    (hemail : stripIsEmpty req.email = false)
    (hphone : stripIsEmpty req.phone = false)
    (hfile : req.hasResumeFile = true)
    (hfn : ¬ req.filename = "")
    (hext : allowed_file req.filename = true) :
    (submit req sheet mail).status = 200 ∧
    (submit req sheet mail).ok = true ∧
    (submit req sheet mail).score = some (calculate_score req.extractedText) ∧
    (submit req sheet mail).decision =
      some (decision (calculate_score req.extractedText)) ∧
    (submit req sheet mail).error = none ∧
    (∀ e, sheet = SheetOutcome.err e →
      ("Sheets logging failed: " ++ e) ∈ (submit req sheet mail).warnings) ∧
    (mail.sent = false →
      ("Email: " ++ mail.msg) ∈ (submit req sheet mail).warnings) := by
  unfold submit
  rw [if_neg (by simp [hname, hemail, hphone]), if_neg (by simp [hfile]),
    if_neg hfn, if_neg (by simp [hext])]
  refine ⟨rfl, rfl, rfl, rfl, rfl, ?_, ?_⟩
  · intro e he
    subst he
    by_cases hm : mail.sent
    · simp [hm]
    · simp [hm]
  · intro hm
    cases sheet with
    | ok => simp [hm]
    | err e => simp [hm]

/-- C8 witness: a well-formed submission with a failing spreadsheet append
and a failing email send still gets a 200 response with score and decision,
the failures appearing as warnings. -/
theorem submit_collaborator_failures_nonfatal_witness :
    (submit ⟨"Jane", "jane@example.com", "12345", true, "resume.pdf", "I know python"⟩
        (SheetOutcome.err "boom") ⟨false, "failed: timeout"⟩).status = 200 ∧
    ("Sheets logging failed: boom") ∈
      (submit ⟨"Jane", "jane@example.com", "12345", true, "resume.pdf", "I know python"⟩
        (SheetOutcome.err "boom") ⟨false, "failed: timeout"⟩).warnings ∧
    ("Email: failed: timeout") ∈
      (submit ⟨"Jane", "jane@example.com", "12345", true, "resume.pdf", "I know python"⟩
        (SheetOutcome.err "boom") ⟨false, "failed: timeout"⟩).warnings := by
  have h := submit_collaborator_failures_nonfatal
    ⟨"Jane", "jane@example.com", "12345", true, "resume.pdf", "I know python"⟩
    (SheetOutcome.err "boom") ⟨false, "failed: timeout"⟩
    (by decide) (by decide) (by decide) rfl (by decide) (by decide)
  exact ⟨h.1, h.2.2.2.2.2.1 "boom" rfl, h.2.2.2.2.2.2 rfl⟩

/-- The loop body never continues past the last attempt: at attempt index 2
it always returns a string. -/
theorem geminiStep_last (a : GeminiAttempt) : ∃ r, geminiStep a 2 = some r := by
  cases a with
  | httpResponse s b c =>
    simp only [geminiStep]
    by_cases h4 : 400 ≤ s
    · rw [if_pos h4, if_neg (fun hc => absurd hc.2 (by omega))]
      exact ⟨_, rfl⟩
    · rw [if_neg h4]
      exact ⟨_, rfl⟩
  | raised m =>
    refine ⟨"(Gemini request failed: " ++ m ++ ")", ?_⟩
    simp [geminiStep]

/-- C9: `call_gemini` always returns a string and never propagates an
exception: either the API key is missing and the fixed message is returned,
or the result is produced by one of the first three attempts (every earlier
attempt having been retried); moreover the result depends on no attempt
beyond the first three. -/
theorem call_gemini_total_bounded (apiKey : String)
    (attempts : Nat → GeminiAttempt) :
    ((apiKey = "" ∧ call_gemini apiKey attempts =
        "(Gemini API key missing – set GEMINI_API_KEY)") ∨
      (∃ i, i < 3 ∧
        geminiStep (attempts i) i = some (call_gemini apiKey attempts) ∧
        ∀ j, j < i → geminiStep (attempts j) j = none)) ∧
    (∀ other : Nat → GeminiAttempt, (∀ i, i < 3 → attempts i = other i) →
      call_gemini apiKey attempts = call_gemini apiKey other) := by
  constructor
  · by_cases hk : apiKey = ""
    · exact Or.inl ⟨hk, by unfold call_gemini; rw [if_pos hk]⟩
    · refine Or.inr ?_
      unfold call_gemini
      rw [if_neg hk]
      cases hs0 : geminiStep (attempts 0) 0 with
      | some r => exact ⟨0, by omega, by rw [hs0], fun j hj => absurd hj (by omega)⟩
      | none =>
        cases hs1 : geminiStep (attempts 1) 1 with
        | some r =>
          refine ⟨1, by omega, by rw [hs1], fun j hj => ?_⟩
          have hj0 : j = 0 := by omega
          rw [hj0, hs0]
        | none =>
          obtain ⟨r, hr⟩ := geminiStep_last (attempts 2)
          refine ⟨2, by omega, by rw [hr], fun j hj => ?_⟩
          match j, hj with
          | 0, _ => exact hs0
          | 1, _ => exact hs1
  · intro other hg
    unfold call_gemini
    rw [hg 0 (by omega), hg 1 (by omega), hg 2 (by omega)]

/-- C9 witness: with a key present and every attempt raising, the result is
produced within the first three attempts. -/
theorem call_gemini_total_bounded_witness :
    (("key" : String) = "" ∧
        call_gemini "key" (fun _ => GeminiAttempt.raised "timeout") =
        "(Gemini API key missing – set GEMINI_API_KEY)") ∨
      (∃ i, i < 3 ∧
        geminiStep ((fun _ => GeminiAttempt.raised "timeout") i) i =
          some (call_gemini "key" (fun _ => GeminiAttempt.raised "timeout")) ∧
        ∀ j, j < i →
          geminiStep ((fun _ => GeminiAttempt.raised "timeout") j) j = none) :=
  (call_gemini_total_bounded "key" (fun _ => GeminiAttempt.raised "timeout")).1

/-- C10: `allowed_file` accepts exactly the filenames containing a dot whose
lower-cased extension after the last dot is pdf, doc, docx or txt; the check
is case-insensitive and filenames with no dot or only a trailing dot are
rejected. -/
theorem allowed_file_iff (filename : String) :
    (allowed_file filename = true ↔
      ('.' ∈ filename.data ∧
        (extAfterLastDot filename.data).map Char.toLower ∈
          ALLOWED_EXTENSIONS.map String.data)) ∧
    allowed_file "RESUME.PDF" = true ∧ allowed_file "resume.pdf" = true ∧
    allowed_file "resume" = false ∧ allowed_file "resume." = false := by
  refine ⟨?_, by decide, by decide, by decide, by decide⟩
  unfold allowed_file
  simp

/-- C10 witness. -/
theorem allowed_file_iff_witness :
    allowed_file "cv.TXT" = true ∧
    ('.' ∈ "cv.TXT".data ∧
      (extAfterLastDot "cv.TXT".data).map Char.toLower ∈
        ALLOWED_EXTENSIONS.map String.data) :=
  ⟨by decide, (allowed_file_iff "cv.TXT").1.mp (by decide)⟩

end ResumeScreening
